import Mathlib

/-!
Verification development for the STAS SDK redeem-split module
(src/lib/stasRedeemSplit.js).

The module assembles a transaction that redeems a STAS token UTXO,
splitting its value over destination outputs, optionally paying a fee
from a payment UTXO and returning change, optionally appending a
zero-value data-carrier output, and either fully signing the inputs or
returning deferred-signing descriptors.

External collaborators (the bsv transaction library, utility.js,
stasTemplates.js, errors.js, stasFeeEstimates.js) are not part of the
source; they are modelled either as abstract fields of an `Env`
structure (script/hash/signature primitives, argument validation,
destination-address compatibility) or, where a claim depends on their
behaviour and the specification pins it down, as explicit definitions
marked `Modelled from the spec:`.

Scripts, public keys, addresses and hashes are modelled as `String`;
satoshi amounts as `Int` (JavaScript subtraction can go negative).
-/

namespace StasRedeemSplit

/-- A UTXO as consumed by stasRedeemSplit: the previous output's locking
script and its satoshi amount (outpoint coordinates play no role in the
logic modelled here). -/
structure Utxo where
  script : String
  satoshis : Int
deriving Repr, DecidableEq

/-- One split destination: a destination address and the amount it is
due to receive. -/
structure SplitDestination where
  address : String
  satoshis : Int
deriving Repr, DecidableEq

/-- A transaction output: locking script and amount. -/
structure TxOutput where
  script : String
  satoshis : Int
deriving Repr, DecidableEq

/-- A transaction input: the spent output's locking script and amount
(JS `tx.inputs[i].output._script` / `._satoshisBN`) and the input's own
unlocking script (empty until `setScript` runs). -/
structure TxInput where
  prevScript : String
  prevSatoshis : Int
  script : String
deriving Repr, DecidableEq

/-- A transaction: ordered inputs and ordered outputs. -/
structure Tx where
  inputs : List TxInput
  outputs : List TxOutput
deriving Repr, DecidableEq

/-- One entry of the output plan (JS `outputData`) handed to the
unlocking-script builder: destination public-key-hash and amount. -/
structure OutputDataEntry where
  publicKeyHash : String
  satoshis : Int
deriving Repr, DecidableEq

/-- A deferred-signing descriptor (JS element of `unsignedData`). -/
structure UnsignedInputData where
  inputIndex : Nat
  satoshis : Int
  script : String
  sighash : Nat
  publicKeyString : String
  stas : Bool
deriving Repr, DecidableEq

/-- A private key, reduced to what the module reads from it: its public
key string (`privateKey.publicKey.toString('hex')`). -/
structure PrivateKey where
  publicKey : String
deriving Repr, DecidableEq

/-- The ways a build can abort. `invalidArguments` models a throw from
`errorHandler.validateRedeemSplitArgs`, `destinationAddressMismatch` a
throw from `errorHandler.checkDestinationAddressCondition`,
`insufficientChange` a throw from `errorHandler.checkZeroChangeThreshold`,
and `nullDereference` the JavaScript TypeError raised by reading
`paymentUtxo.satoshis` when `paymentUtxo` is absent. -/
inductive BuildError where
  | invalidArguments
  | destinationAddressMismatch
  | insufficientChange
  | nullDereference
deriving Repr, DecidableEq

/-- The external collaborators of stasRedeemSplit.js, abstracted: script
and hash utilities from utility.js, the STAS template engine from
stasTemplates.js, the bsv signature primitive, argument validation and
the destination-address compatibility rule from errors.js, and the dust
threshold used by the zero-change check. -/
structure Env where
  getPKHfromPublicKey : String → String
  checkIfStas20 : String → Bool
  getRedeemPublicKeyHash : String → String
  buildP2pkhOutputScript : String → String
  addressToPKH : String → String
  updateStasScript : String → String → String
  formatDataToHexStringWithOpCodeConversion : String → String
  buildUnlockingScriptUnsigned : Tx → List OutputDataEntry → Bool → Option String → Bool → Bool → String
  sign : Tx → PrivateKey → Nat → Nat → String → Int → String
  sighash : Nat
  validateRedeemSplitArgs : String → Utxo → String → Option Utxo → List SplitDestination → Bool
  checkDestinationAddressCondition : String → String → Bool → Bool
  dustLimit : Int

/-- JS `splitDestinations.reduce((a, b) => a + b.satoshis, 0)`. -/
def sumSats (dests : List SplitDestination) : Int :=
  dests.foldl (fun a b => a + b.satoshis) 0

/-- Modelled from the spec: `errorHandler.checkZeroChangeThreshold`
(errors.js, not under src/) succeeds exactly when
`paymentUtxo.satoshis - txCost` is at least the minimum dust threshold. -/
def checkZeroChangeThreshold (env : Env) (paymentSats txCost : Int) : Bool :=
  decide (env.dustLimit ≤ paymentSats - txCost)

/-- The destination loop of `unSignedFunc` (stasRedeemSplit.js lines
57-65): per destination, derive its public-key-hash, re-template the
token script, check the destination-address condition, and collect the
re-templated output together with its output-plan entry. -/
def processSplitDestinations (env : Env) (isStas20 : Bool) (tokenScript : String) :
    List SplitDestination → Except BuildError (List TxOutput × List OutputDataEntry)
  | [] => .ok ([], [])
  | d :: rest =>
    let destinationPublicKeyHash := env.addressToPKH d.address
    let stasScript := env.updateStasScript destinationPublicKeyHash tokenScript
    let redeemAddr := env.getRedeemPublicKeyHash stasScript
    if env.checkDestinationAddressCondition redeemAddr destinationPublicKeyHash isStas20 then
      match processSplitDestinations env isStas20 tokenScript rest with
      | .ok (outs, plan) =>
        .ok (TxOutput.mk stasScript d.satoshis :: outs,
             OutputDataEntry.mk destinationPublicKeyHash d.satoshis :: plan)
      | .error e => .error e
    else
      .error BuildError.destinationAddressMismatch

/-- The change output appended by lines 67-77: present exactly when a
payment UTXO was supplied and `isZeroChange` is false; pay-to-public-key-
hash to the payment public key's hash, amount `paymentUtxo.satoshis -
txCost`. -/
def changeOutputList (env : Env) (paymentPublicKey : String) (paymentUtxo : Option Utxo)
    (isZeroChange : Bool) (txCost : Int) : List TxOutput :=
  match paymentUtxo, isZeroChange with
  | some pu, false =>
    [TxOutput.mk (env.buildP2pkhOutputScript (env.getPKHfromPublicKey paymentPublicKey))
      (pu.satoshis - txCost)]
  | _, _ => []

/-- The output-plan entry pushed alongside the change output. -/
def changePlanList (env : Env) (paymentPublicKey : String) (paymentUtxo : Option Utxo)
    (isZeroChange : Bool) (txCost : Int) : List OutputDataEntry :=
  match paymentUtxo, isZeroChange with
  | some pu, false =>
    [OutputDataEntry.mk (env.getPKHfromPublicKey paymentPublicKey) (pu.satoshis - txCost)]
  | _, _ => []

/-- The zero-value data-carrier output appended by lines 83-90: present
exactly when the token is STAS-20 and a data payload was supplied;
script is the fixed two-byte prefix `006a` followed by the formatted
payload. -/
def dataOutputList (env : Env) (stasUtxo : Utxo) (data : Option String) : List TxOutput :=
  match data with
  | some d =>
    if env.checkIfStas20 stasUtxo.script then
      [TxOutput.mk ("006a" ++ env.formatDataToHexStringWithOpCodeConversion d) 0]
    else []
  | none => []

/-- The value of the JS variable `data` after line 84 (reassigned to its
formatted form only on the STAS-20-with-data branch); this is what is
passed on to `buildUnlockingScriptUnsigned`. -/
def dataFormatted (env : Env) (stasUtxo : Utxo) (data : Option String) : Option String :=
  match data with
  | some d =>
    if env.checkIfStas20 stasUtxo.script then
      some (env.formatDataToHexStringWithOpCodeConversion d)
    else some d
  | none => none

/-- The inputs created by `tx.from(stasUtxo)` and (when a payment UTXO
exists) `tx.from(paymentUtxo)`: unlocking scripts start empty. -/
def txInputsOf (stasUtxo : Utxo) (paymentUtxo : Option Utxo) : List TxInput :=
  TxInput.mk stasUtxo.script stasUtxo.satoshis "" ::
    (match paymentUtxo with
     | some pu => [TxInput.mk pu.script pu.satoshis ""]
     | none => [])

/-- The deferred descriptor for the token input (line 98), produced
exactly when no owner private key is supplied. -/
def ownerDeferredList (env : Env) (ownerPublicKey : String) (stasUtxo : Utxo)
    (ownerPrivateKey : Option PrivateKey) : List UnsignedInputData :=
  match ownerPrivateKey with
  | some _ => []
  | none => [UnsignedInputData.mk 0 stasUtxo.satoshis stasUtxo.script env.sighash ownerPublicKey true]

/-- The deferred descriptor for the payment input (line 105), produced
exactly when a payment UTXO exists but no payment private key is
supplied. -/
def paymentDeferredList (env : Env) (paymentPublicKey : String) (paymentUtxo : Option Utxo)
    (paymentPrivateKey : Option PrivateKey) : List UnsignedInputData :=
  match paymentUtxo with
  | none => []
  | some pu =>
    match paymentPrivateKey with
    | some _ => []
    | none => [UnsignedInputData.mk 1 pu.satoshis pu.script env.sighash paymentPublicKey false]

/-- What `unSignedFunc` holds just before returning: the transaction,
the output plan that was handed to `buildUnlockingScriptUnsigned`, and
the deferred-signing descriptors. -/
structure BuildOutcome where
  tx : Tx
  outputData : List OutputDataEntry
  unsignedData : List UnsignedInputData
deriving Repr, DecidableEq

/-- Lines 83-107 of `unSignedFunc`: append the data output, compute the
unsigned unlocking-script fragment over the fully-populated transaction
and the output plan, then sign or defer each input. -/
def finishBuild (env : Env) (ownerPublicKey : String) (stasUtxo : Utxo)
    (paymentPublicKey : String) (paymentUtxo : Option Utxo)
    (outputs2 : List TxOutput) (plan2 : List OutputDataEntry)
    (data : Option String) (isZeroChange : Bool)
    (ownerPrivateKey paymentPrivateKey : Option PrivateKey) : BuildOutcome :=
  let isStas20 := env.checkIfStas20 stasUtxo.script
  let outputs3 := outputs2 ++ dataOutputList env stasUtxo data
  let tx1 : Tx := Tx.mk (txInputsOf stasUtxo paymentUtxo) outputs3
  let fragment := env.buildUnlockingScriptUnsigned tx1 plan2 isStas20
    (dataFormatted env stasUtxo data) paymentUtxo.isNone isZeroChange
  let script0 :=
    match ownerPrivateKey with
    | some k =>
      fragment ++ " " ++ env.sign tx1 k env.sighash 0 stasUtxo.script stasUtxo.satoshis
        ++ " " ++ ownerPublicKey
    | none => fragment
  let input0 := TxInput.mk stasUtxo.script stasUtxo.satoshis script0
  let finalInputs :=
    match paymentUtxo with
    | none => [input0]
    | some pu =>
      match paymentPrivateKey with
      | some k =>
        [input0, TxInput.mk pu.script pu.satoshis
          (env.sign (Tx.mk [input0, TxInput.mk pu.script pu.satoshis ""] outputs3) k env.sighash 1
            pu.script pu.satoshis ++ " " ++ paymentPublicKey)]
      | none => [input0, TxInput.mk pu.script pu.satoshis ""]
  BuildOutcome.mk (Tx.mk finalInputs outputs3) plan2
    (ownerDeferredList env ownerPublicKey stasUtxo ownerPrivateKey ++
      paymentDeferredList env paymentPublicKey paymentUtxo paymentPrivateKey)

/-- The body of `unSignedFunc` (stasRedeemSplit.js lines 25-107) up to
its return value: validate arguments, build inputs, emit the redeem
output, the per-destination outputs, the optional change output, run the
zero-change threshold check (which reads `paymentUtxo.satoshis`
unconditionally — `nullDereference` when the payment UTXO is absent),
then the data output and signing. -/
def unSignedFuncCore (env : Env) (ownerPublicKey : String) (stasUtxo : Utxo)
    (paymentPublicKey : String) (paymentUtxo : Option Utxo)
    (splitDestinations : List SplitDestination) (data : Option String) (isZeroChange : Bool)
    (ownerPrivateKey paymentPrivateKey : Option PrivateKey) (txCost : Int)
    (feeEstimateCall : Bool) : Except BuildError BuildOutcome :=
  if env.validateRedeemSplitArgs ownerPublicKey stasUtxo paymentPublicKey paymentUtxo splitDestinations then
    match processSplitDestinations env (env.checkIfStas20 stasUtxo.script) stasUtxo.script splitDestinations with
    | .error e => .error e
    | .ok (destOutputs, destPlan) =>
      let redeemPkh := env.getRedeemPublicKeyHash stasUtxo.script
      let redeemSats := stasUtxo.satoshis - sumSats splitDestinations
      let outputs2 := TxOutput.mk (env.buildP2pkhOutputScript redeemPkh) redeemSats
        :: destOutputs ++ changeOutputList env paymentPublicKey paymentUtxo isZeroChange txCost
      let plan2 := OutputDataEntry.mk redeemPkh redeemSats
        :: destPlan ++ changePlanList env paymentPublicKey paymentUtxo isZeroChange txCost
      let result := finishBuild env ownerPublicKey stasUtxo paymentPublicKey paymentUtxo
        outputs2 plan2 data isZeroChange ownerPrivateKey paymentPrivateKey
      if isZeroChange && !feeEstimateCall then
        match paymentUtxo with
        | none => .error BuildError.nullDereference
        | some pu =>
          if checkZeroChangeThreshold env pu.satoshis txCost then .ok result
          else .error BuildError.insufficientChange
      else .ok result
  else .error BuildError.invalidArguments

/-- The value `unSignedFunc` resolves with. `txObject` is the bsv
`Transaction` object returned by line 115 (`return tx`); note that the
function's own JSDoc instead promises the signed transaction in
hexadecimal format for this case. `withUnsignedData` is the object
`{ unsignedData, tx }` of lines 110-113. -/
inductive BuildResult where
  | txObject (tx : Tx)
  | withUnsignedData (unsignedData : List UnsignedInputData) (tx : Tx)
deriving Repr, DecidableEq

/-- Lines 109-116: return `{ unsignedData, tx }` when any descriptor was
deferred, otherwise the transaction itself. -/
def wrapOutcome (o : BuildOutcome) : BuildResult :=
  if o.unsignedData.isEmpty then BuildResult.txObject o.tx
  else BuildResult.withUnsignedData o.unsignedData o.tx

/-- The whole of `unSignedFunc` (lines 25-117): the build body followed
by the result-shape choice of lines 109-116. -/
def unSignedFunc (env : Env) (ownerPublicKey : String) (stasUtxo : Utxo)
    (paymentPublicKey : String) (paymentUtxo : Option Utxo)
    (splitDestinations : List SplitDestination) (data : Option String) (isZeroChange : Bool)
    (ownerPrivateKey paymentPrivateKey : Option PrivateKey) (txCost : Int)
    (feeEstimateCall : Bool) : Except BuildError BuildResult :=
  Except.map wrapOutcome
    (unSignedFuncCore env ownerPublicKey stasUtxo paymentPublicKey paymentUtxo
      splitDestinations data isZeroChange ownerPrivateKey paymentPrivateKey txCost feeEstimateCall)

/-- `signedFunc` (lines 132-134): derive both public keys from the
supplied private keys and run `unSignedFunc` with both keys present. -/
def signedFunc (env : Env) (ownerPrivateKey : PrivateKey) (stasUtxo : Utxo)
    (splitDestinations : List SplitDestination) (paymentUtxo : Option Utxo)
    (paymentPrivateKey : PrivateKey) (data : Option String) (isZeroChange : Bool)
    (txCost : Int) (feeEstimateCall : Bool) : Except BuildError BuildResult :=
  unSignedFunc env ownerPrivateKey.publicKey stasUtxo paymentPrivateKey.publicKey paymentUtxo
    splitDestinations data isZeroChange (some ownerPrivateKey) (some paymentPrivateKey)
    txCost feeEstimateCall

/-- Modelled from the spec: `stasFeeEstimates.templatePrivateKey`
(stasFeeEstimates.js, not under src/) — the single template key pair
used for both the owner and payment roles during fee estimation. -/
def templatePrivateKey : PrivateKey := PrivateKey.mk "feeEstimateTemplatePublicKey"

/-- Modelled from the spec: `stasFeeEstimates.paymentUtxoTemplate` — the
template payment UTXO used during fee estimation. -/
def paymentUtxoTemplate : Utxo := Utxo.mk "feeEstimateTemplatePaymentScript" 1000000

/-- Modelled from the spec: `stasFeeEstimates.txCost` — the estimation
pass runs the build with txCost 0. -/
def feeEstimatesTxCost : Int := 0

/-- Modelled from the spec: `stasFeeEstimates.buildSplitDestinations` —
N placeholder split destinations with a fixed template address, whose
amounts are chosen to sum within the supplied token value. -/
def buildSplitDestinations (n : Nat) (satoshis : Int) : List SplitDestination :=
  List.replicate n (SplitDestination.mk "feeEstimateTemplateAddress" (satoshis / Int.ofNat (max n 1)))

/-- Modelled from the spec: `utility.SATS` — the fixed fee rate per
serialized kilobyte handed to `feePerKb`. -/
def SATS : Nat := 50

/-- Modelled from the spec: the bsv library's serialized transaction
size — a fixed overhead plus, per input, a fixed part and the bytes of
its unlocking script, plus, per output, a fixed part and the bytes of
its locking script. -/
def txSerializedSize (tx : Tx) : Nat :=
  10 + tx.inputs.foldl (fun a i => a + 41 + i.script.length) 0
     + tx.outputs.foldl (fun a o => a + 9 + o.script.length) 0

/-- Modelled from the spec: bsv `feePerKb(SATS)._estimateFee()` — the
serialized size times the fixed rate per 1000 size units, rounded up. -/
def estimateFee (size : Nat) : Nat := (size * SATS + 999) / 1000

/-- `feeEstimate` (lines 144-148): build placeholder destinations from
the requested destination count and the caller's token UTXO value, run
the full signed build on the caller's token UTXO with the template
payment UTXO, the template key pair in both roles, txCost 0 and the
check-suppressing flag, and price the resulting transaction's size.
The `withUnsignedData` branch cannot occur (both template keys are
supplied); it is mapped to an error. -/
def feeEstimate (env : Env) (stasUtxo : Utxo) (splitDestinations : List SplitDestination)
    (data : Option String) (isZeroChange : Bool) : Except BuildError Nat :=
  match signedFunc env templatePrivateKey stasUtxo
      (buildSplitDestinations splitDestinations.length stasUtxo.satoshis)
      paymentUtxoTemplate templatePrivateKey data isZeroChange feeEstimatesTxCost true with
  | .ok (.txObject tx) => .ok (estimateFee (txSerializedSize tx))
  | .ok (.withUnsignedData _ _) => .error BuildError.invalidArguments
  | .error e => .error e

/-- The exported `signed` entry point (lines 161-164): estimate the fee,
then run the signed build with it. -/
def signed (env : Env) (ownerPrivateKey : PrivateKey) (stasUtxo : Utxo)
    (splitDestinations : List SplitDestination) (paymentUtxo : Option Utxo)
    (paymentPrivateKey : PrivateKey) (data : Option String) (isZeroChange : Bool) :
    Except BuildError BuildResult :=
  match feeEstimate env stasUtxo splitDestinations data isZeroChange with
  | .error e => .error e
  | .ok txCost =>
    signedFunc env ownerPrivateKey stasUtxo splitDestinations paymentUtxo paymentPrivateKey
      data isZeroChange (Int.ofNat txCost) false

/-- The exported `unSigned` entry point (lines 177-180): estimate the
fee, then run the build with no private keys. -/
def unSigned (env : Env) (ownerPublicKey : String) (stasUtxo : Utxo)
    (paymentPublicKey : String) (paymentUtxo : Option Utxo)
    (splitDestinations : List SplitDestination) (data : Option String) (isZeroChange : Bool) :
    Except BuildError BuildResult :=
  match feeEstimate env stasUtxo splitDestinations data isZeroChange with
  | .error e => .error e
  | .ok txCost =>
    unSignedFunc env ownerPublicKey stasUtxo paymentPublicKey paymentUtxo splitDestinations
      data isZeroChange none none (Int.ofNat txCost) false

/-! Observers used to state properties of build results. -/

/-- Whether an operation succeeded. -/
def exceptOk {α : Type} : Except BuildError α → Bool
  | .ok _ => true
  | .error _ => false

/-- The transaction carried by either result form. -/
def BuildResult.tx : BuildResult → Tx
  | .txObject t => t
  | .withUnsignedData _ t => t

/-- The outputs of a successful build. -/
def resultOutputs : Except BuildError BuildResult → Option (List TxOutput)
  | .ok r => some r.tx.outputs
  | .error _ => none

/-- Output 0 of a successful build. -/
def resultHeadOutput : Except BuildError BuildResult → Option TxOutput
  | .ok r => r.tx.outputs.head?
  | .error _ => none

/-- The output at a given index of a successful build. -/
def resultOutputAt (r : Except BuildError BuildResult) (i : Nat) : Option TxOutput :=
  match r with
  | .ok r => r.tx.outputs[i]?
  | .error _ => none

/-- The deferred-descriptor list of a successful build; `[]` when the
result is the plain transaction form. -/
def resultDeferred : Except BuildError BuildResult → Option (List UnsignedInputData)
  | .ok (.txObject _) => some []
  | .ok (.withUnsignedData l _) => some l
  | .error _ => none

/-- Whether a successful build carries an `unsignedData` field. -/
def resultHasUnsignedField : Except BuildError BuildResult → Option Bool
  | .ok (.txObject _) => some false
  | .ok (.withUnsignedData _ _) => some true
  | .error _ => none

/-- Whether every input of a successful build has a non-empty unlocking
script. -/
def resultInputScriptsAllNonEmpty : Except BuildError BuildResult → Option Bool
  | .ok r => some (r.tx.inputs.all fun i => !(i.script == ""))
  | .error _ => none

/-- Whether a successful build resolved with the plain transaction
object (line 115) rather than the `{ unsignedData, tx }` object. -/
def resultIsTransactionObject : Except BuildError BuildResult → Option Bool
  | .ok (.txObject _) => some true
  | .ok (.withUnsignedData _ _) => some false
  | .error _ => none

/-- The output plan of a successful core build. -/
def outcomePlan : Except BuildError BuildOutcome → Option (List OutputDataEntry)
  | .ok o => some o.outputData
  | .error _ => none

/-- The outputs of a successful core build. -/
def outcomeOutputs : Except BuildError BuildOutcome → Option (List TxOutput)
  | .ok o => some o.tx.outputs
  | .error _ => none

/-- Output-plan length and output-list length of a successful core
build. -/
def outcomeLengths : Except BuildError BuildOutcome → Option (Nat × Nat)
  | .ok o => some (o.outputData.length, o.tx.outputs.length)
  | .error _ => none

/-- The fee of a successful fee estimation. -/
def feeValue : Except BuildError Nat → Option Nat
  | .ok n => some n
  | .error _ => none

/-! Spec-side descriptions used in the claim statements. -/

/-- The redeem output the specification describes: pay-to-public-key-hash
to the redemption hash extracted from the token UTXO's script, amount
`stasUtxo.satoshis - sum of destination amounts`. -/
def redeemOutputOf (env : Env) (stasUtxo : Utxo) (dests : List SplitDestination) : TxOutput :=
  TxOutput.mk (env.buildP2pkhOutputScript (env.getRedeemPublicKeyHash stasUtxo.script))
    (stasUtxo.satoshis - sumSats dests)

/-- The output-plan entry for the redeem output. -/
def redeemPlanOf (env : Env) (stasUtxo : Utxo) (dests : List SplitDestination) : OutputDataEntry :=
  OutputDataEntry.mk (env.getRedeemPublicKeyHash stasUtxo.script)
    (stasUtxo.satoshis - sumSats dests)

/-- The re-templated token outputs, one per destination in order. -/
def destOutputList (env : Env) (tokenScript : String) (dests : List SplitDestination) :
    List TxOutput :=
  dests.map fun d =>
    TxOutput.mk (env.updateStasScript (env.addressToPKH d.address) tokenScript) d.satoshis

/-- The output-plan entries for the destination outputs, in order. -/
def destPlanList (env : Env) (_tokenScript : String) (dests : List SplitDestination) :
    List OutputDataEntry :=
  dests.map fun d => OutputDataEntry.mk (env.addressToPKH d.address) d.satoshis

/-! Concrete fixtures for witnesses and counterexamples. -/

/-- A concrete collaborator environment: string-tagging primitives, an
always-true validator and destination condition, STAS-20 detection by
script equality with "stas20", and a dust limit of 136. -/
def testEnv : Env :=
  Env.mk
    (fun pk => "pkh:" ++ pk)
    (fun s => s == "stas20")
    (fun s => "redeem:" ++ s)
    (fun h => "p2pkh:" ++ h)
    (fun a => "apkh:" ++ a)
    (fun pkh s => "stas:" ++ pkh ++ ":" ++ s)
    (fun d => "fmt:" ++ d)
    (fun _ _ _ _ _ _ => "frag")
    (fun _ _ _ _ _ _ => "sig")
    65
    (fun _ _ _ _ _ => true)
    (fun _ _ _ => true)
    136

/-- A STAS-20 token UTXO fixture. -/
def tokenUtxoA : Utxo := Utxo.mk "stas20" 10000

/-- A destination fixture. -/
def destA : SplitDestination := SplitDestination.mk "addrA" 3000

/-- A second destination fixture. -/
def destB : SplitDestination := SplitDestination.mk "addrB" 4000

/-- A payment UTXO fixture. -/
def payUtxoA : Utxo := Utxo.mk "payScript" 5000

/-- A payment UTXO too small to cover a 1000-satoshi cost. -/
def lowPayUtxo : Utxo := Utxo.mk "payLow" 100

/-- An owner key fixture. -/
def ownerKeyA : PrivateKey := PrivateKey.mk "ownerPub"

/-- A payment key fixture. -/
def payKeyA : PrivateKey := PrivateKey.mk "payPub"

/-! Helper lemmas. -/

/-- Success of an `Except` computation means it returns some value. -/
theorem exceptOk_iff_ok {α : Type} {x : Except BuildError α} :
    exceptOk x = true ↔ ∃ a, x = Except.ok a := by
  cases x <;> simp [exceptOk]

/-- A string with an embedded separator is never empty. -/
theorem append_sep_ne_empty (x y : String) : x ++ " " ++ y ≠ "" := by
  intro hcontra
  have hlen := congrArg String.length hcontra
  rw [String.length_append, String.length_append] at hlen
  have h1 : (" " : String).length = 1 := rfl
  have h2 : ("" : String).length = 0 := rfl
  rw [h1, h2] at hlen
  omega

/-- Both result forms carry the build's transaction. -/
theorem wrapOutcome_tx (o : BuildOutcome) : (wrapOutcome o).tx = o.tx := by
  unfold wrapOutcome
  split <;> rfl

/-- A successful destination loop yields exactly the re-templated
outputs and plan entries of the destinations, in order. -/
theorem processSplitDestinations_ok {env : Env} {s20 : Bool} {scr : String} :
    ∀ {dests : List SplitDestination} {dp : List TxOutput × List OutputDataEntry},
      processSplitDestinations env s20 scr dests = Except.ok dp →
      dp = (destOutputList env scr dests, destPlanList env scr dests) := by
  intro dests
  induction dests with
  | nil =>
    intro dp h
    simp only [processSplitDestinations] at h
    cases h
    simp [destOutputList, destPlanList]
  | cons d rest ih =>
    intro dp h
    simp only [processSplitDestinations] at h
    split at h
    · split at h
      · rename_i outs plan heq
        cases h
        have hrest := ih heq
        simp only [Prod.mk.injEq] at hrest
        simp [destOutputList, destPlanList, hrest.1, hrest.2]
      · cases h
    · cases h

/-- The destination loop only ever fails with the
destination-address-mismatch error. -/
theorem processSplitDestinations_error {env : Env} {s20 : Bool} {scr : String} :
    ∀ {dests : List SplitDestination} {e : BuildError},
      processSplitDestinations env s20 scr dests = Except.error e →
      e = BuildError.destinationAddressMismatch := by
  intro dests
  induction dests with
  | nil =>
    intro e h
    simp only [processSplitDestinations] at h
    cases h
  | cons d rest ih =>
    intro e h
    simp only [processSplitDestinations] at h
    split at h
    · split at h
      · cases h
      · rename_i heq
        cases h
        exact ih heq
    · cases h
      rfl

/-- A successful core build is the finishing step applied to the
planned redeem, destination and change outputs. -/
theorem unSignedFuncCore_ok {env : Env} {opk ppk : String} {st : Utxo} {pu : Option Utxo}
    {dests : List SplitDestination} {data : Option String} {izc : Bool}
    {okey pkey : Option PrivateKey} {c : Int} {f : Bool} {o : BuildOutcome}
    (h : unSignedFuncCore env opk st ppk pu dests data izc okey pkey c f = Except.ok o) :
    o = finishBuild env opk st ppk pu
        (redeemOutputOf env st dests :: destOutputList env st.script dests
          ++ changeOutputList env ppk pu izc c)
        (redeemPlanOf env st dests :: destPlanList env st.script dests
          ++ changePlanList env ppk pu izc c)
        data izc okey pkey := by
  unfold unSignedFuncCore at h
  split at h
  · split at h
    · cases h
    · rename_i destOutputs destPlan heq
      have hdp := processSplitDestinations_ok heq
      simp only [Prod.mk.injEq] at hdp
      split at h
      · split at h
        · cases h
        · split at h
          · cases h
            rw [hdp.1, hdp.2]
            rfl
          · cases h
      · cases h
        rw [hdp.1, hdp.2]
        rfl
  · cases h

/-- The errors a core build can produce: argument validation,
destination mismatch, or (only when `isZeroChange && !feeEstimateCall`)
the zero-change branch. -/
theorem unSignedFuncCore_error_cases {env : Env} {opk ppk : String} {st : Utxo}
    {pu : Option Utxo} {dests : List SplitDestination} {data : Option String} {izc : Bool}
    {okey pkey : Option PrivateKey} {c : Int} {f : Bool} {e : BuildError}
    (h : unSignedFuncCore env opk st ppk pu dests data izc okey pkey c f = Except.error e) :
    e = BuildError.invalidArguments ∨ e = BuildError.destinationAddressMismatch ∨
      (izc && !f) = true := by
  unfold unSignedFuncCore at h
  split at h
  · split at h
    · rename_i heq
      cases h
      exact Or.inr (Or.inl (processSplitDestinations_error heq))
    · split at h
      · rename_i hguard
        exact Or.inr (Or.inr hguard)
      · cases h
  · cases h
    exact Or.inl rfl

/-- The outputs of a finished build: the planned outputs followed by the
optional data-carrier output. -/
theorem finishBuild_outputs (env : Env) (opk : String) (st : Utxo) (ppk : String)
    (pu : Option Utxo) (outputs2 : List TxOutput) (plan2 : List OutputDataEntry)
    (data : Option String) (izc : Bool) (okey pkey : Option PrivateKey) :
    (finishBuild env opk st ppk pu outputs2 plan2 data izc okey pkey).tx.outputs
      = outputs2 ++ dataOutputList env st data := rfl

/-- The output plan of a finished build is passed through unchanged. -/
theorem finishBuild_plan (env : Env) (opk : String) (st : Utxo) (ppk : String)
    (pu : Option Utxo) (outputs2 : List TxOutput) (plan2 : List OutputDataEntry)
    (data : Option String) (izc : Bool) (okey pkey : Option PrivateKey) :
    (finishBuild env opk st ppk pu outputs2 plan2 data izc okey pkey).outputData = plan2 := rfl

/-- The deferred descriptors of a finished build: the owner descriptor
(when the owner key is missing) then the payment descriptor (when a
payment input exists and its key is missing). -/
theorem finishBuild_unsigned (env : Env) (opk : String) (st : Utxo) (ppk : String)
    (pu : Option Utxo) (outputs2 : List TxOutput) (plan2 : List OutputDataEntry)
    (data : Option String) (izc : Bool) (okey pkey : Option PrivateKey) :
    (finishBuild env opk st ppk pu outputs2 plan2 data izc okey pkey).unsignedData
      = ownerDeferredList env opk st okey ++ paymentDeferredList env ppk pu pkey := rfl

/-- With both private keys supplied, every input of the finished build
has a non-empty unlocking script. -/
theorem finishBuild_all_scripts_nonempty (env : Env) (opk : String) (st : Utxo) (ppk : String)
    (pu : Option Utxo) (outputs2 : List TxOutput) (plan2 : List OutputDataEntry)
    (data : Option String) (izc : Bool) (k1 k2 : PrivateKey) :
    ((finishBuild env opk st ppk pu outputs2 plan2 data izc (some k1) (some k2)).tx.inputs.all
      fun i => !(i.script == "")) = true := by
  cases pu with
  | none =>
    simp only [finishBuild, List.all]
    simp [append_sep_ne_empty]
  | some p =>
    simp only [finishBuild, List.all]
    simp [append_sep_ne_empty]

/-- Length of the optional change-output list. -/
theorem changeOutputList_length (env : Env) (ppk : String) (pu : Option Utxo) (izc : Bool)
    (c : Int) :
    (changeOutputList env ppk pu izc c).length = if pu.isSome && !izc then 1 else 0 := by
  cases pu <;> cases izc <;> simp [changeOutputList]

/-- Length of the optional change-plan list. -/
theorem changePlanList_length (env : Env) (ppk : String) (pu : Option Utxo) (izc : Bool)
    (c : Int) :
    (changePlanList env ppk pu izc c).length = if pu.isSome && !izc then 1 else 0 := by
  cases pu <;> cases izc <;> simp [changePlanList]

/-- Length of the optional data-output list. -/
theorem dataOutputList_length (env : Env) (st : Utxo) (data : Option String) :
    (dataOutputList env st data).length
      = if env.checkIfStas20 st.script && data.isSome then 1 else 0 := by
  cases data with
  | none => simp [dataOutputList]
  | some d =>
    cases h20 : env.checkIfStas20 st.script <;> simp [dataOutputList, h20]

/-- Change plan and change output carry the same satoshi amounts. -/
theorem changePlanList_map_satoshis (env : Env) (ppk : String) (pu : Option Utxo)
    (izc : Bool) (c : Int) :
    (changePlanList env ppk pu izc c).map OutputDataEntry.satoshis
      = (changeOutputList env ppk pu izc c).map TxOutput.satoshis := by
  cases pu <;> cases izc <;> simp [changePlanList, changeOutputList]

section

variable {env : Env} {opk ppk : String} {st : Utxo} {pu : Option Utxo}
  {dests : List SplitDestination} {data : Option String} {izc : Bool}
  {okey pkey : Option PrivateKey} {c : Int} {f : Bool} {o : BuildOutcome}

/-- The deferred list reported by `unSignedFunc` is the core build's
descriptor list, whichever result shape is chosen. -/
theorem unSignedFunc_deferred
    (hc : unSignedFuncCore env opk st ppk pu dests data izc okey pkey c f = Except.ok o) :
    resultDeferred (unSignedFunc env opk st ppk pu dests data izc okey pkey c f)
      = some o.unsignedData := by
  unfold unSignedFunc
  rw [hc]
  simp only [Except.map]
  unfold wrapOutcome
  split
  · rename_i hempty
    simp only [resultDeferred]
    rw [List.isEmpty_iff.mp hempty]
  · simp [resultDeferred]

/-- `unSignedFunc` reports an `unsignedData` field exactly when the core
build deferred at least one descriptor. -/
theorem unSignedFunc_hasUnsigned
    (hc : unSignedFuncCore env opk st ppk pu dests data izc okey pkey c f = Except.ok o) :
    resultHasUnsignedField (unSignedFunc env opk st ppk pu dests data izc okey pkey c f)
      = some (!o.unsignedData.isEmpty) := by
  unfold unSignedFunc
  rw [hc]
  simp only [Except.map]
  unfold wrapOutcome
  split
  · rename_i hempty
    simp [resultHasUnsignedField, hempty]
  · rename_i hempty
    simp only [Bool.not_eq_true] at hempty
    simp [resultHasUnsignedField, hempty]

/-- The outputs reported by `unSignedFunc` are the core build's. -/
theorem unSignedFunc_outputs
    (hc : unSignedFuncCore env opk st ppk pu dests data izc okey pkey c f = Except.ok o) :
    resultOutputs (unSignedFunc env opk st ppk pu dests data izc okey pkey c f)
      = some o.tx.outputs := by
  unfold unSignedFunc
  rw [hc]
  simp [Except.map, resultOutputs, wrapOutcome_tx]

/-- Output 0 reported by `unSignedFunc` is the core build's. -/
theorem unSignedFunc_headOutput
    (hc : unSignedFuncCore env opk st ppk pu dests data izc okey pkey c f = Except.ok o) :
    resultHeadOutput (unSignedFunc env opk st ppk pu dests data izc okey pkey c f)
      = o.tx.outputs.head? := by
  unfold unSignedFunc
  rw [hc]
  simp [Except.map, resultHeadOutput, wrapOutcome_tx]

/-- The output at any index reported by `unSignedFunc` is the core
build's. -/
theorem unSignedFunc_outputAt (i : Nat)
    (hc : unSignedFuncCore env opk st ppk pu dests data izc okey pkey c f = Except.ok o) :
    resultOutputAt (unSignedFunc env opk st ppk pu dests data izc okey pkey c f) i
      = o.tx.outputs[i]? := by
  unfold unSignedFunc
  rw [hc]
  simp [Except.map, resultOutputAt, wrapOutcome_tx]

/-- The input-script check reported by `unSignedFunc` is over the core
build's inputs. -/
theorem unSignedFunc_scripts
    (hc : unSignedFuncCore env opk st ppk pu dests data izc okey pkey c f = Except.ok o) :
    resultInputScriptsAllNonEmpty (unSignedFunc env opk st ppk pu dests data izc okey pkey c f)
      = some (o.tx.inputs.all fun i => !(i.script == "")) := by
  unfold unSignedFunc
  rw [hc]
  simp [Except.map, resultInputScriptsAllNonEmpty, wrapOutcome_tx]

/-- Success of `unSignedFunc` is success of the core build. -/
theorem unSignedFunc_ok_core
    (h : exceptOk (unSignedFunc env opk st ppk pu dests data izc okey pkey c f) = true) :
    ∃ o', unSignedFuncCore env opk st ppk pu dests data izc okey pkey c f = Except.ok o' := by
  obtain ⟨r, hr⟩ := exceptOk_iff_ok.mp h
  unfold unSignedFunc at hr
  cases hc : unSignedFuncCore env opk st ppk pu dests data izc okey pkey c f with
  | error e => rw [hc] at hr; cases hr
  | ok o' => exact ⟨o', rfl⟩

/-- On any successful build, output 0 is the redeem output. -/
theorem unSignedFunc_redeem_head
    (h : exceptOk (unSignedFunc env opk st ppk pu dests data izc okey pkey c f) = true) :
    resultHeadOutput (unSignedFunc env opk st ppk pu dests data izc okey pkey c f)
      = some (redeemOutputOf env st dests) := by
  obtain ⟨o', hc⟩ := unSignedFunc_ok_core h
  rw [unSignedFunc_headOutput hc]
  rw [unSignedFuncCore_ok hc, finishBuild_outputs]
  simp [List.cons_append]

end

/-! Claim theorems. -/

/-- C1: for every successful build through the signed or the unsigned
entry point, output 0 is the redeem output: amount
`stasUtxo.satoshis - sum of destination amounts`, locking script a
standard pay-to-public-key-hash to the redemption public-key-hash
extracted from the token UTXO's locking script. -/
theorem claim_C1_redeem_output (env : Env) (k1 k2 : PrivateKey) (opk ppk : String)
    (st : Utxo) (dests : List SplitDestination) (pu : Option Utxo) (data : Option String)
    (izc : Bool) :
    (exceptOk (signed env k1 st dests pu k2 data izc) = true →
      resultHeadOutput (signed env k1 st dests pu k2 data izc)
        = some (redeemOutputOf env st dests)) ∧
    (exceptOk (unSigned env opk st ppk pu dests data izc) = true →
      resultHeadOutput (unSigned env opk st ppk pu dests data izc)
        = some (redeemOutputOf env st dests)) := by
  constructor
  · intro h
    unfold signed at h ⊢
    cases hfe : feeEstimate env st dests data izc with
    | error e => rw [hfe] at h; simp [exceptOk] at h
    | ok tc => rw [hfe] at h; exact unSignedFunc_redeem_head h
  · intro h
    unfold unSigned at h ⊢
    cases hfe : feeEstimate env st dests data izc with
    | error e => rw [hfe] at h; simp [exceptOk] at h
    | ok tc => rw [hfe] at h; exact unSignedFunc_redeem_head h

/-- C1 witness: a concrete successful run of each entry point. -/
theorem claim_C1_witness :
    resultHeadOutput (signed testEnv ownerKeyA tokenUtxoA [destA, destB] (some payUtxoA)
        payKeyA none false)
      = some (redeemOutputOf testEnv tokenUtxoA [destA, destB]) ∧
    resultHeadOutput (unSigned testEnv "ownerPub" tokenUtxoA "payPub" (some payUtxoA)
        [destA, destB] none false)
      = some (redeemOutputOf testEnv tokenUtxoA [destA, destB]) :=
  ⟨(claim_C1_redeem_output testEnv ownerKeyA payKeyA "ownerPub" "payPub" tokenUtxoA
      [destA, destB] (some payUtxoA) none false).1 (by decide),
   (claim_C1_redeem_output testEnv ownerKeyA payKeyA "ownerPub" "payPub" tokenUtxoA
      [destA, destB] (some payUtxoA) none false).2 (by decide)⟩

/-- C2: on every successful build the output list is, in this order, the
redeem output, one re-templated token output per destination in supplied
order with that destination's amount, a change output exactly when a
payment UTXO was supplied and isZeroChange is false, and a zero-value
data output exactly when the token is STAS-20 and a data payload was
supplied; the count is 1 + destinations + change + data. -/
theorem claim_C2_output_order (env : Env) (opk : String) (st : Utxo) (ppk : String)
    (pu : Option Utxo) (dests : List SplitDestination) (data : Option String) (izc : Bool)
    (okey pkey : Option PrivateKey) (c : Int) (f : Bool)
    (h : exceptOk (unSignedFunc env opk st ppk pu dests data izc okey pkey c f) = true) :
    resultOutputs (unSignedFunc env opk st ppk pu dests data izc okey pkey c f)
      = some (redeemOutputOf env st dests :: destOutputList env st.script dests
          ++ changeOutputList env ppk pu izc c ++ dataOutputList env st data) ∧
    (resultOutputs (unSignedFunc env opk st ppk pu dests data izc okey pkey c f)).map
        List.length
      = some (1 + dests.length + (if pu.isSome && !izc then 1 else 0)
          + (if env.checkIfStas20 st.script && data.isSome then 1 else 0)) := by
  obtain ⟨o', hc⟩ := unSignedFunc_ok_core h
  have h1 : resultOutputs (unSignedFunc env opk st ppk pu dests data izc okey pkey c f)
      = some (redeemOutputOf env st dests :: destOutputList env st.script dests
          ++ changeOutputList env ppk pu izc c ++ dataOutputList env st data) := by
    rw [unSignedFunc_outputs hc, unSignedFuncCore_ok hc, finishBuild_outputs]
  refine ⟨h1, ?_⟩
  have hch := changeOutputList_length env ppk pu izc c
  have hda := dataOutputList_length env st data
  rw [h1, ← hch, ← hda]
  simp only [Option.map_some', Option.some.injEq, List.length_cons, List.length_append,
    destOutputList, List.length_map]
  omega

/-- C2 witness: a concrete successful build with destinations, change
and a data payload. -/
theorem claim_C2_witness :
    resultOutputs (unSignedFunc testEnv "ownerPub" tokenUtxoA "payPub" (some payUtxoA)
        [destA, destB] (some "memo") false (some ownerKeyA) (some payKeyA) 700 false)
      = some (redeemOutputOf testEnv tokenUtxoA [destA, destB]
          :: destOutputList testEnv tokenUtxoA.script [destA, destB]
          ++ changeOutputList testEnv "payPub" (some payUtxoA) false 700
          ++ dataOutputList testEnv tokenUtxoA (some "memo")) ∧
    (resultOutputs (unSignedFunc testEnv "ownerPub" tokenUtxoA "payPub" (some payUtxoA)
        [destA, destB] (some "memo") false (some ownerKeyA) (some payKeyA) 700 false)).map
        List.length
      = some (1 + [destA, destB].length + (if (some payUtxoA).isSome && !false then 1 else 0)
          + (if testEnv.checkIfStas20 tokenUtxoA.script && (some "memo").isSome then 1 else 0)) :=
  claim_C2_output_order testEnv "ownerPub" tokenUtxoA "payPub" (some payUtxoA)
    [destA, destB] (some "memo") false (some ownerKeyA) (some payKeyA) 700 false (by decide)

/-- C3: on every successful build, the deferred-descriptor list holds
exactly one owner descriptor (index 0, the token UTXO's script and
amount, the signature-hash mode, the owner public key, stas flag true)
when the owner key is missing, and exactly one payment descriptor
(index 1, the payment UTXO's script and amount, stas flag false) when a
payment input exists and its key is missing; the object result form is
chosen exactly when some descriptor was deferred; and with both private
keys supplied every input carries a non-empty unlocking script. -/
theorem claim_C3_signing_contract (env : Env) (opk : String) (st : Utxo) (ppk : String)
    (pu : Option Utxo) (dests : List SplitDestination) (data : Option String) (izc : Bool)
    (okey pkey : Option PrivateKey) (c : Int) (f : Bool)
    (h : exceptOk (unSignedFunc env opk st ppk pu dests data izc okey pkey c f) = true) :
    resultDeferred (unSignedFunc env opk st ppk pu dests data izc okey pkey c f)
      = some (ownerDeferredList env opk st okey ++ paymentDeferredList env ppk pu pkey) ∧
    resultHasUnsignedField (unSignedFunc env opk st ppk pu dests data izc okey pkey c f)
      = some (!(okey.isSome && (pu.isNone || pkey.isSome))) ∧
    (okey.isSome = true → pkey.isSome = true →
      resultInputScriptsAllNonEmpty (unSignedFunc env opk st ppk pu dests data izc okey pkey c f)
        = some true) := by
  obtain ⟨o', hc⟩ := unSignedFunc_ok_core h
  have hun : o'.unsignedData
      = ownerDeferredList env opk st okey ++ paymentDeferredList env ppk pu pkey := by
    rw [unSignedFuncCore_ok hc, finishBuild_unsigned]
  refine ⟨?_, ?_, ?_⟩
  · rw [unSignedFunc_deferred hc, hun]
  · rw [unSignedFunc_hasUnsigned hc, hun]
    cases okey <;> cases pu <;> cases pkey <;>
      simp [ownerDeferredList, paymentDeferredList]
  · intro hok hpk
    obtain ⟨kOwn, hkOwn⟩ := Option.isSome_iff_exists.mp hok
    obtain ⟨kPay, hkPay⟩ := Option.isSome_iff_exists.mp hpk
    rw [unSignedFunc_scripts hc, unSignedFuncCore_ok hc, hkOwn, hkPay,
      finishBuild_all_scripts_nonempty]

/-- C3 witness: a concrete fully-keyed build. -/
theorem claim_C3_witness :
    resultDeferred (unSignedFunc testEnv "ownerPub" tokenUtxoA "payPub" (some payUtxoA)
        [destA] none false (some ownerKeyA) (some payKeyA) 500 false)
      = some (ownerDeferredList testEnv "ownerPub" tokenUtxoA (some ownerKeyA)
          ++ paymentDeferredList testEnv "payPub" (some payUtxoA) (some payKeyA)) ∧
    resultHasUnsignedField (unSignedFunc testEnv "ownerPub" tokenUtxoA "payPub" (some payUtxoA)
        [destA] none false (some ownerKeyA) (some payKeyA) 500 false)
      = some (!((some ownerKeyA).isSome
          && ((some payUtxoA).isNone || (some payKeyA).isSome))) ∧
    resultInputScriptsAllNonEmpty (unSignedFunc testEnv "ownerPub" tokenUtxoA "payPub"
        (some payUtxoA) [destA] none false (some ownerKeyA) (some payKeyA) 500 false)
      = some true :=
  ⟨(claim_C3_signing_contract testEnv "ownerPub" tokenUtxoA "payPub" (some payUtxoA)
      [destA] none false (some ownerKeyA) (some payKeyA) 500 false (by decide)).1,
   (claim_C3_signing_contract testEnv "ownerPub" tokenUtxoA "payPub" (some payUtxoA)
      [destA] none false (some ownerKeyA) (some payKeyA) 500 false (by decide)).2.1,
   (claim_C3_signing_contract testEnv "ownerPub" tokenUtxoA "payPub" (some payUtxoA)
      [destA] none false (some ownerKeyA) (some payKeyA) 500 false (by decide)).2.2
     (by decide) (by decide)⟩

/-- C4 counterexample: a build with a payment UTXO of 100 satoshis,
change requested (isZeroChange false), txCost 1000 and no fee-estimation
flag — the payment UTXO cannot cover txCost plus the dust threshold, yet
the build succeeds and emits a change output of
`paymentUtxo.satoshis - txCost = -900`, instead of failing. -/
theorem claim_C4_cx :
    exceptOk (unSignedFunc testEnv "ownerPub" tokenUtxoA "payPub" (some lowPayUtxo) [destA]
        none false (some ownerKeyA) (some payKeyA) 1000 false) = true ∧
    resultOutputAt (unSignedFunc testEnv "ownerPub" tokenUtxoA "payPub" (some lowPayUtxo)
        [destA] none false (some ownerKeyA) (some payKeyA) 1000 false) 2
      = some (TxOutput.mk "p2pkh:pkh:payPub" (-900)) := by
  decide

/-- C4 (amended): when change is requested (isZeroChange false) no
sufficiency check runs at all — the build never fails with the
insufficient-change error, and on success the change output at index
1 + |destinations| carries `paymentUtxo.satoshis - txCost`
unconditionally. -/
theorem claim_C4_change_unchecked (env : Env) (opk : String) (st : Utxo) (ppk : String)
    (p : Utxo) (dests : List SplitDestination) (data : Option String)
    (okey pkey : Option PrivateKey) (c : Int) (f : Bool) :
    unSignedFuncCore env opk st ppk (some p) dests data false okey pkey c f
      ≠ Except.error BuildError.insufficientChange ∧
    (exceptOk (unSignedFunc env opk st ppk (some p) dests data false okey pkey c f) = true →
      resultOutputAt (unSignedFunc env opk st ppk (some p) dests data false okey pkey c f)
        (1 + dests.length)
        = some (TxOutput.mk (env.buildP2pkhOutputScript (env.getPKHfromPublicKey ppk))
            (p.satoshis - c))) := by
  constructor
  · intro heq
    rcases unSignedFuncCore_error_cases heq with h | h | h
    · cases h
    · cases h
    · simp at h
  · intro h
    obtain ⟨o', hc⟩ := unSignedFunc_ok_core h
    rw [unSignedFunc_outputAt (1 + dests.length) hc, unSignedFuncCore_ok hc,
      finishBuild_outputs]
    have hlen : (destOutputList env st.script dests).length = dests.length := by
      simp [destOutputList]
    rw [Nat.add_comm 1 dests.length]
    rw [List.cons_append, List.cons_append, List.getElem?_cons_succ, List.append_assoc]
    rw [List.getElem?_append_right (le_of_eq hlen)]
    simp [hlen, changeOutputList]

/-- C4 witness: the amended theorem applied at the counterexample's
concrete input. -/
theorem claim_C4_witness :
    unSignedFuncCore testEnv "ownerPub" tokenUtxoA "payPub" (some lowPayUtxo) [destA] none
        false (some ownerKeyA) (some payKeyA) 1000 false
      ≠ Except.error BuildError.insufficientChange ∧
    resultOutputAt (unSignedFunc testEnv "ownerPub" tokenUtxoA "payPub" (some lowPayUtxo)
        [destA] none false (some ownerKeyA) (some payKeyA) 1000 false) (1 + [destA].length)
      = some (TxOutput.mk (testEnv.buildP2pkhOutputScript (testEnv.getPKHfromPublicKey "payPub"))
          (lowPayUtxo.satoshis - 1000)) :=
  ⟨(claim_C4_change_unchecked testEnv "ownerPub" tokenUtxoA "payPub" lowPayUtxo [destA] none
      (some ownerKeyA) (some payKeyA) 1000 false).1,
   (claim_C4_change_unchecked testEnv "ownerPub" tokenUtxoA "payPub" lowPayUtxo [destA] none
      (some ownerKeyA) (some payKeyA) 1000 false).2 (by decide)⟩

/-- C5: with isZeroChange true and no fee-estimation flag, a build whose
payment UTXO leaves `paymentUtxo.satoshis - txCost` below the dust
threshold fails with the insufficient-change error (given that argument
validation and the destination checks pass); and with the
fee-estimation flag set the check is skipped entirely — the
insufficient-change error can never occur. -/
theorem claim_C5_zero_change_threshold (env : Env) (opk : String) (st : Utxo) (ppk : String)
    (p : Utxo) (dests : List SplitDestination) (data : Option String)
    (okey pkey : Option PrivateKey) (c : Int) :
    (env.validateRedeemSplitArgs opk st ppk (some p) dests = true →
     exceptOk (processSplitDestinations env (env.checkIfStas20 st.script) st.script dests) = true →
     p.satoshis - c < env.dustLimit →
     unSignedFuncCore env opk st ppk (some p) dests data true okey pkey c false
       = Except.error BuildError.insufficientChange) ∧
    (∀ (pu2 : Option Utxo) (izc2 : Bool) (c2 : Int),
      unSignedFuncCore env opk st ppk pu2 dests data izc2 okey pkey c2 true
        ≠ Except.error BuildError.insufficientChange) := by
  constructor
  · intro hv hd hlt
    obtain ⟨dp, hdp⟩ := exceptOk_iff_ok.mp hd
    obtain ⟨destOutputs, destPlan⟩ := dp
    have hth : checkZeroChangeThreshold env p.satoshis c = false := by
      simp [checkZeroChangeThreshold]
      omega
    unfold unSignedFuncCore
    simp only [hv, if_true]
    rw [hdp]
    simp [hth]
  · intro pu2 izc2 c2 heq
    rcases unSignedFuncCore_error_cases heq with h | h | h
    · cases h
    · cases h
    · simp at h

/-- C5 witness: the threshold failure at a concrete 100-satoshi payment
UTXO with txCost 1000, and the skip under the fee-estimation flag. -/
theorem claim_C5_witness :
    unSignedFuncCore testEnv "ownerPub" tokenUtxoA "payPub" (some lowPayUtxo) [destA] none
        true (some ownerKeyA) (some payKeyA) 1000 false
      = Except.error BuildError.insufficientChange ∧
    unSignedFuncCore testEnv "ownerPub" tokenUtxoA "payPub" (some lowPayUtxo) [destA] none
        true (some ownerKeyA) (some payKeyA) 1000 true
      ≠ Except.error BuildError.insufficientChange :=
  ⟨(claim_C5_zero_change_threshold testEnv "ownerPub" tokenUtxoA "payPub" lowPayUtxo [destA]
      none (some ownerKeyA) (some payKeyA) 1000).1 (by decide) (by decide) (by decide),
   (claim_C5_zero_change_threshold testEnv "ownerPub" tokenUtxoA "payPub" lowPayUtxo [destA]
      none (some ownerKeyA) (some payKeyA) 1000).2 (some lowPayUtxo) true 1000⟩

/-- C10: with isZeroChange true and no fee-estimation flag, the
zero-change check reads `paymentUtxo.satoshis` unconditionally, so a
build with no payment UTXO aborts with the null-dereference failure
instead of taking the zero-fee path cleanly (given that argument
validation and the destination checks pass). -/
theorem claim_C10_null_payment_deref (env : Env) (opk : String) (st : Utxo) (ppk : String)
    (dests : List SplitDestination) (data : Option String) (okey pkey : Option PrivateKey)
    (c : Int)
    (hv : env.validateRedeemSplitArgs opk st ppk none dests = true)
    (hd : exceptOk (processSplitDestinations env (env.checkIfStas20 st.script) st.script dests)
      = true) :
    unSignedFuncCore env opk st ppk none dests data true okey pkey c false
      = Except.error BuildError.nullDereference := by
  obtain ⟨dp, hdp⟩ := exceptOk_iff_ok.mp hd
  obtain ⟨destOutputs, destPlan⟩ := dp
  unfold unSignedFuncCore
  simp only [hv, if_true]
  rw [hdp]
  simp

/-- C10 witness: the null dereference at a concrete keyless zero-fee
call with isZeroChange true. -/
theorem claim_C10_witness :
    unSignedFuncCore testEnv "ownerPub" tokenUtxoA "payPub" none [destA] none true none none
        50 false
      = Except.error BuildError.nullDereference :=
  claim_C10_null_payment_deref testEnv "ownerPub" tokenUtxoA "payPub" [destA] none none none
    50 (by decide) (by decide)

/-- C6 counterexample: a successful STAS-20 build with a data payload
produces 4 transaction outputs but only 3 output-plan entries — the
data-carrier output gets no plan entry, contradicting "one entry per
produced output, including the data-carrier output". -/
theorem claim_C6_cx :
    outcomeLengths (unSignedFuncCore testEnv "ownerPub" tokenUtxoA "payPub" (some payUtxoA)
        [destA] (some "memo") false (some ownerKeyA) (some payKeyA) 500 false)
      = some (3, 4) := by
  decide

/-- C6 (amended): on every successful build the output plan holds the
redeem entry, one entry per destination in order, and the change entry
when change is produced — one entry per produced output except the
data-carrier output, carrying the same satoshi amounts in the same
order; the output count exceeds the plan length exactly by the
data-carrier output. -/
theorem claim_C6_plan_lockstep (env : Env) (opk : String) (st : Utxo) (ppk : String)
    (pu : Option Utxo) (dests : List SplitDestination) (data : Option String) (izc : Bool)
    (okey pkey : Option PrivateKey) (c : Int) (f : Bool)
    (h : exceptOk (unSignedFuncCore env opk st ppk pu dests data izc okey pkey c f) = true) :
    outcomePlan (unSignedFuncCore env opk st ppk pu dests data izc okey pkey c f)
      = some (redeemPlanOf env st dests :: destPlanList env st.script dests
          ++ changePlanList env ppk pu izc c) ∧
    (outcomePlan (unSignedFuncCore env opk st ppk pu dests data izc okey pkey c f)).map
        (List.map OutputDataEntry.satoshis)
      = (outcomeOutputs (unSignedFuncCore env opk st ppk pu dests data izc okey pkey c f)).map
          (fun outs =>
            (outs.take (1 + dests.length + (if pu.isSome && !izc then 1 else 0))).map
              TxOutput.satoshis) ∧
    (outcomeOutputs (unSignedFuncCore env opk st ppk pu dests data izc okey pkey c f)).map
        List.length
      = (outcomePlan (unSignedFuncCore env opk st ppk pu dests data izc okey pkey c f)).map
          (fun plan => plan.length + (dataOutputList env st data).length) := by
  obtain ⟨o, hc⟩ := exceptOk_iff_ok.mp h
  have hcore := unSignedFuncCore_ok hc
  have hplan : o.outputData
      = redeemPlanOf env st dests :: destPlanList env st.script dests
          ++ changePlanList env ppk pu izc c := by
    rw [hcore, finishBuild_plan]
  have houts : o.tx.outputs
      = (redeemOutputOf env st dests :: destOutputList env st.script dests
          ++ changeOutputList env ppk pu izc c) ++ dataOutputList env st data := by
    rw [hcore, finishBuild_outputs]
  refine ⟨?_, ?_, ?_⟩
  · rw [hc]
    simp only [outcomePlan]
    rw [hplan]
  · rw [hc]
    simp only [outcomePlan, outcomeOutputs, Option.map_some']
    rw [hplan, houts]
    have hK : (redeemOutputOf env st dests :: destOutputList env st.script dests
        ++ changeOutputList env ppk pu izc c).length
        = 1 + dests.length + (if pu.isSome && !izc then 1 else 0) := by
      rw [← changeOutputList_length env ppk pu izc c]
      simp [List.length_cons, List.length_append, destOutputList]
      omega
    rw [← hK, List.take_left]
    simp [List.map_append, List.map_cons, redeemPlanOf, redeemOutputOf, destPlanList,
      destOutputList, List.map_map, Function.comp, changePlanList_map_satoshis]
  · rw [hc]
    simp only [outcomePlan, outcomeOutputs, Option.map_some', Option.some.injEq]
    rw [hplan, houts]
    have hch := changeOutputList_length env ppk pu izc c
    have hcp := changePlanList_length env ppk pu izc c
    simp only [List.length_append, List.length_cons, destOutputList, destPlanList,
      List.length_map, hch, hcp]

/-- C6 witness: the amended lockstep at the counterexample's concrete
input (STAS-20 token, data payload, change produced). -/
theorem claim_C6_witness :
    outcomePlan (unSignedFuncCore testEnv "ownerPub" tokenUtxoA "payPub" (some payUtxoA)
        [destA] (some "memo") false (some ownerKeyA) (some payKeyA) 500 false)
      = some (redeemPlanOf testEnv tokenUtxoA [destA]
          :: destPlanList testEnv tokenUtxoA.script [destA]
          ++ changePlanList testEnv "payPub" (some payUtxoA) false 500) ∧
    (outcomePlan (unSignedFuncCore testEnv "ownerPub" tokenUtxoA "payPub" (some payUtxoA)
        [destA] (some "memo") false (some ownerKeyA) (some payKeyA) 500 false)).map
        (List.map OutputDataEntry.satoshis)
      = (outcomeOutputs (unSignedFuncCore testEnv "ownerPub" tokenUtxoA "payPub" (some payUtxoA)
          [destA] (some "memo") false (some ownerKeyA) (some payKeyA) 500 false)).map
          (fun outs =>
            (outs.take (1 + [destA].length
              + (if (some payUtxoA).isSome && !false then 1 else 0))).map TxOutput.satoshis) ∧
    (outcomeOutputs (unSignedFuncCore testEnv "ownerPub" tokenUtxoA "payPub" (some payUtxoA)
        [destA] (some "memo") false (some ownerKeyA) (some payKeyA) 500 false)).map
        List.length
      = (outcomePlan (unSignedFuncCore testEnv "ownerPub" tokenUtxoA "payPub" (some payUtxoA)
          [destA] (some "memo") false (some ownerKeyA) (some payKeyA) 500 false)).map
          (fun plan => plan.length
            + (dataOutputList testEnv tokenUtxoA (some "memo")).length) :=
  claim_C6_plan_lockstep testEnv "ownerPub" tokenUtxoA "payPub" (some payUtxoA) [destA]
    (some "memo") false (some ownerKeyA) (some payKeyA) 500 false (by decide)

/-- C7 counterexample: two fee estimations agreeing on destination
count, data presence and change flag but differing in the caller's
token UTXO script return different fees — the measurement transaction
is not built from a template token UTXO. -/
theorem claim_C7_cx :
    feeValue (feeEstimate testEnv (Utxo.mk "aa" 10000) [destA] none false)
      ≠ feeValue (feeEstimate testEnv (Utxo.mk "aaaaaaaaaaaaaaaaaaaaaaaaaaaaaa" 10000)
          [destA] none false) := by
  decide

/-- C7 (amended): the fee-estimation entry point builds its measurement
transaction from N placeholder split destinations (N the requested
count, amounts derived from the caller's token UTXO value), the
caller's token UTXO itself, the template payment UTXO and the single
template key pair used for both roles, runs the full signed build with
txCost 0 and the check-suppressing flag, and derives the fee from the
resulting transaction's serialized size at the fixed fee rate. -/
theorem claim_C7_fee_algorithm (env : Env) (st : Utxo) (dests : List SplitDestination)
    (data : Option String) (izc : Bool) :
    feeEstimate env st dests data izc
      = Except.map (fun o => estimateFee (txSerializedSize o.tx))
          (unSignedFuncCore env templatePrivateKey.publicKey st templatePrivateKey.publicKey
            (some paymentUtxoTemplate) (buildSplitDestinations dests.length st.satoshis)
            data izc (some templatePrivateKey) (some templatePrivateKey)
            feeEstimatesTxCost true) := by
  unfold feeEstimate signedFunc unSignedFunc
  cases hc : unSignedFuncCore env templatePrivateKey.publicKey st templatePrivateKey.publicKey
      (some paymentUtxoTemplate) (buildSplitDestinations dests.length st.satoshis)
      data izc (some templatePrivateKey) (some templatePrivateKey)
      feeEstimatesTxCost true with
  | error e => simp [Except.map]
  | ok o =>
    have hu : o.unsignedData = [] := by
      rw [unSignedFuncCore_ok hc, finishBuild_unsigned]
      rfl
    simp [Except.map, wrapOutcome, hu]

/-- C8 counterexample: two fee estimations agreeing on destination
count (one), data presence (supplied) and change flag (false) but
differing in the token UTXO's script return different fees. -/
theorem claim_C8_cx :
    feeValue (feeEstimate testEnv (Utxo.mk "stas20" 8000) [destB] (some "memo") false)
      ≠ feeValue (feeEstimate testEnv
          (Utxo.mk "bbbbbbbbbbbbbbbbbbbbbbbbbbbbbbbbbbbbbbbbbbbbbbbbbbbbbbbbbbbb" 8000)
          [destB] (some "memo") false) := by
  decide

/-- C8 (amended): the fee estimate depends on the supplied destinations
only through their count — two calls agreeing on the environment, the
token UTXO, the data payload and the change flag, with equally many
destinations, return the same fee regardless of the destinations'
addresses and amounts. -/
theorem claim_C8_fee_count_only (env : Env) (st : Utxo) (data : Option String) (izc : Bool)
    (dests1 dests2 : List SplitDestination) (hlen : dests1.length = dests2.length) :
    feeEstimate env st dests1 data izc = feeEstimate env st dests2 data izc := by
  unfold feeEstimate
  rw [hlen]

/-- C8 witness: equal fees for two single-destination calls with
different addresses and amounts. -/
theorem claim_C8_witness :
    feeEstimate testEnv tokenUtxoA [destA] none false
      = feeEstimate testEnv tokenUtxoA [destB] none false :=
  claim_C8_fee_count_only testEnv tokenUtxoA none false [destA] [destB] rfl

/-- C9: with all private keys supplied, the signed entry point resolves
with the bsv Transaction object itself (line 115 `return tx`) rather
than a hexadecimal serialization — evaluating the build at a concrete
fully-keyed input yields the `txObject` result form. -/
theorem claim_C9_returns_object :
    resultIsTransactionObject (signed testEnv ownerKeyA tokenUtxoA [destA] (some payUtxoA)
        payKeyA none false) = some true := by
  decide

end StasRedeemSplit
